import Mathlib

/-!
Verification of the skinSR adversarial-training orchestration layer.

The development shallowly embeds `src/edge_informed_SISR/src/models.py`
(the `BaseModel`, `EdgeModel`, `SRModel`, `GradientModel` classes) and
`src/unet_unet++/src/config.py` (`Config.__getattr__`).

Modelling conventions:
* A PyTorch tensor is a value from an abstract carrier type `V` paired with
  two Boolean autograd flags recording whether gradients flow from this
  tensor back into the generator's or the discriminator's parameters.
  `Tensor.detach` models `tensor.detach()`: it keeps the value and cuts
  both gradient paths.
* The generator, discriminator and the loss primitives are opaque
  differentiable functions, collected in a `Nets` record; scalar losses
  land in `ℚ`.
* Statement order inside `process` and `backward` is made observable by an
  explicit event trace, listed in the order the corresponding Python
  statements execute.
* `torch.save` / `torch.load` act on a file store mapping path strings to
  checkpoint records; a present file with the wrong record shape makes
  `load` fail, mirroring the KeyError the Python would raise.
* The fixed `conv_transpose2d` upsampling of `SRModel` is embedded
  concretely over ℚ-valued images indexed by channel, row and column.
-/

namespace SkinSR

/-- Tensor over an abstract value carrier `V`.  `genGrad` (resp. `disGrad`)
records whether back-propagating through this tensor deposits gradient in
the generator's (resp. discriminator's) parameters. -/
structure Tensor (V : Type) where
  val : V
  genGrad : Bool
  disGrad : Bool
  deriving Repr, DecidableEq

/-- Model of `tensor.detach()`: same value, no gradient flow. -/
def Tensor.detach {V : Type} (t : Tensor V) : Tensor V :=
  ⟨t.val, false, false⟩

/-- A leaf data tensor (batch input): no parameters behind it. -/
def Tensor.leaf {V : Type} (v : V) : Tensor V :=
  ⟨v, false, false⟩

/-- The opaque networks and loss primitives a controller owns
(`self.generator`, `self.discriminator`, `self.adversarial_loss`,
`self.L1_loss`, `self.content_loss`, `self.style_loss`), together with the
tensor-shaping operations the forward passes use (`torch.cat`,
`F.interpolate`, the fixed transposed-convolution upsampling).
The discriminator returns a score and `nFeat` intermediate feature maps. -/
structure Nets (V : Type) where
  genF : V → V
  disScoreF : V → V
  disFeatF : V → ℕ → V
  nFeat : ℕ
  advL : V → Bool → Bool → ℚ
  l1L : V → V → ℚ
  contentL : V → V → ℚ
  styleL : V → V → ℚ
  catF : V → V → V
  interpF : V → V
  upsampleF : V → V

/-- Configured per-term loss weights (fields of `config`). -/
structure Weights where
  ADV_LOSS_WEIGHT1 : ℚ
  ADV_LOSS_WEIGHT2 : ℚ
  FM_LOSS_WEIGHT : ℚ
  L1_LOSS_WEIGHT : ℚ
  CONTENT_LOSS_WEIGHT : ℚ
  STYLE_LOSS_WEIGHT : ℚ

/-- Scalar tensor `0`, the Python literal initialising `gen_loss`/`dis_loss`. -/
def zeroT : Tensor ℚ := ⟨0, false, false⟩

/-- Addition of scalar loss tensors; gradient flows from both summands. -/
def addT (a b : Tensor ℚ) : Tensor ℚ :=
  ⟨a.val + b.val, a.genGrad || b.genGrad, a.disGrad || b.disGrad⟩

/-- Division of a scalar loss tensor by 2 (`/ 2` in the Python). -/
def halfT (a : Tensor ℚ) : Tensor ℚ :=
  ⟨a.val / 2, a.genGrad, a.disGrad⟩

/-- Multiplication of a scalar loss tensor by a configured weight. -/
def smulT (a : Tensor ℚ) (w : ℚ) : Tensor ℚ :=
  ⟨a.val * w, a.genGrad, a.disGrad⟩

/-- Model of `torch.cat((a, b), dim = 1)`: gradient flows from both parts. -/
def catT {V : Type} (N : Nets V) (a b : Tensor V) : Tensor V :=
  ⟨N.catF a.val b.val, a.genGrad || b.genGrad, a.disGrad || b.disGrad⟩

/-- Model of `F.interpolate(t, scale_factor = SCALE)`: a fixed
parameter-free operation, so gradient flags pass through. -/
def interpT {V : Type} (N : Nets V) (t : Tensor V) : Tensor V :=
  ⟨N.interpF t.val, t.genGrad, t.disGrad⟩

/-- Model of `F.conv_transpose2d(t, self.scale_kernel, ...)`: the kernel is
a registered buffer, not a parameter, so gradient flags pass through. -/
def upsampleT {V : Type} (N : Nets V) (t : Tensor V) : Tensor V :=
  ⟨N.upsampleF t.val, t.genGrad, t.disGrad⟩

/-- Model of `self.generator.forward(t)`: output depends on the generator
parameters, so `genGrad` becomes true. -/
def applyGen {V : Type} (N : Nets V) (t : Tensor V) : Tensor V :=
  ⟨N.genF t.val, true, t.disGrad⟩

/-- Score half of `self.discriminator.forward(t)`: depends on the
discriminator parameters, so `disGrad` becomes true. -/
def disScoreT {V : Type} (N : Nets V) (t : Tensor V) : Tensor V :=
  ⟨N.disScoreF t.val, t.genGrad, true⟩

/-- Feature `i` of `self.discriminator.forward(t)`. -/
def disFeatT {V : Type} (N : Nets V) (t : Tensor V) (i : ℕ) : Tensor V :=
  ⟨N.disFeatF t.val i, t.genGrad, true⟩

/-- Model of `self.adversarial_loss(score, is_real, is_disc)`. -/
def advLossT {V : Type} (N : Nets V) (t : Tensor V) (isReal isDisc : Bool) :
    Tensor ℚ :=
  ⟨N.advL t.val isReal isDisc, t.genGrad, t.disGrad⟩

/-- Model of `self.L1_loss(a, b)`. -/
def l1T {V : Type} (N : Nets V) (a b : Tensor V) : Tensor ℚ :=
  ⟨N.l1L a.val b.val, a.genGrad || b.genGrad, a.disGrad || b.disGrad⟩

/-- Model of `self.content_loss(a, b)`. -/
def contentLossT {V : Type} (N : Nets V) (a b : Tensor V) : Tensor ℚ :=
  ⟨N.contentL a.val b.val, a.genGrad || b.genGrad, a.disGrad || b.disGrad⟩

/-- Model of `self.style_loss(a, b)`. -/
def styleLossT {V : Type} (N : Nets V) (a b : Tensor V) : Tensor ℚ :=
  ⟨N.styleL a.val b.val, a.genGrad || b.genGrad, a.disGrad || b.disGrad⟩

/-- Controller state: the fields of `BaseModel` (`name`, `config.PATH`,
`config.MODE`, `iteration`) plus opaque parameter blobs for the two
networks (`state_dict` contents) and the two optimizers' accumulated
gradient magnitudes.  `mode` is optional because an unset `MODE` key reads
back as Python `None`. -/
structure ControllerState (P : Type) where
  name : String
  path : String
  mode : Option ℤ
  iteration : ℕ
  genParams : P
  disParams : P
  genGrad : ℚ
  disGrad : ℚ

/-- Model of `BaseModel.__init__`: the iteration counter starts at 0. -/
def mkBaseModel {P : Type} (name path : String) (mode : Option ℤ)
    (g d : P) : ControllerState P :=
  ⟨name, path, mode, 0, g, d, 0, 0⟩

/-- Observable events of one `process` call, in Python statement order. -/
inductive Event where
  | iterIncr
  | zeroGradGen
  | zeroGradDis
  | genFwd
  | disFwd
  | lossEval
  deriving Repr, DecidableEq

/-- Result bundle of one `process` call. -/
structure ProcResult (V P : Type) where
  state : ControllerState P
  outputs : Tensor V
  genLoss : Tensor ℚ
  disLoss : Tensor ℚ
  logs : List (String × ℚ)
  trace : List Event

/-- The feature-matching loop
`for i in range(len(dis_real_feat)): gen_fm_loss += L1(gen_fake_feat[i], dis_real_feat[i].detach())`
as a fold over `range n`, starting from the Python literal `0`. -/
def fmFold {V : Type} (N : Nets V) (fakeFeat realFeat : ℕ → Tensor V)
    (n : ℕ) : Tensor ℚ :=
  (List.range n).foldl
    (fun acc i => addT acc (l1T N (fakeFeat i) ((realFeat i).detach))) zeroT

/-- Model of `EdgeModel.forward(lr_images, lr_edges)`. -/
def edgeForward {V : Type} (N : Nets V) (lrImages lrEdges : Tensor V) :
    Tensor V :=
  let hrImages := interpT N lrImages
  let hrEdges := interpT N lrEdges
  let inputs := catT N hrImages hrEdges
  applyGen N inputs

/-- Model of `EdgeModel.process`, line by line; the trace lists the
iteration increment, the two `zero_grad` calls, the network forward passes
and the loss-primitive evaluations in program order (the feature-matching
loop contributes one `lossEval` per discriminator feature). -/
def edgeProcess {V P : Type} (N : Nets V) (w : Weights)
    (st : ControllerState P)
    (lrImages hrImages lrEdges hrEdges : Tensor V) : ProcResult V P :=
  let st1 : ControllerState P := { st with iteration := st.iteration + 1 }
  let st2 : ControllerState P := { st1 with genGrad := 0 }
  let st3 : ControllerState P := { st2 with disGrad := 0 }
  let outputs := edgeForward N lrImages lrEdges
  let disInputReal := catT N hrImages hrEdges
  let disInputFake := catT N hrImages outputs.detach
  let disReal := disScoreT N disInputReal
  let disRealFeat := disFeatT N disInputReal
  let disFake := disScoreT N disInputFake
  let disRealLoss := advLossT N disReal true true
  let disFakeLoss := advLossT N disFake false true
  let disLoss := addT zeroT (halfT (addT disRealLoss disFakeLoss))
  let genInputFake := catT N hrImages outputs
  let genFake := disScoreT N genInputFake
  let genFakeFeat := disFeatT N genInputFake
  let genGanLoss := smulT (advLossT N genFake true false) w.ADV_LOSS_WEIGHT1
  let genFmLoss := smulT (fmFold N genFakeFeat disRealFeat N.nFeat) w.FM_LOSS_WEIGHT
  let genLoss := addT (addT zeroT genGanLoss) genFmLoss
  let logs := [("l_dis", disLoss.val), ("l_gen", genGanLoss.val),
               ("l_fm", genFmLoss.val)]
  let trace := [Event.iterIncr, Event.zeroGradGen, Event.zeroGradDis,
                Event.genFwd, Event.disFwd, Event.disFwd,
                Event.lossEval, Event.lossEval,
                Event.disFwd, Event.lossEval] ++
               (List.range N.nFeat).map (fun _ => Event.lossEval)
  ⟨st3, outputs, genLoss, disLoss, logs, trace⟩

/-- Model of `GradientModel.forward(lr_images, lr_gradients)` (the class
duplicates `EdgeModel.forward` verbatim). -/
def gradientForward {V : Type} (N : Nets V) (lrImages lrGradients : Tensor V) :
    Tensor V :=
  let hrImages := interpT N lrImages
  let hrGradients := interpT N lrGradients
  let inputs := catT N hrImages hrGradients
  applyGen N inputs

/-- Model of `GradientModel.process` (a verbatim duplicate of
`EdgeModel.process` in the source). -/
def gradientProcess {V P : Type} (N : Nets V) (w : Weights)
    (st : ControllerState P)
    (lrImages hrImages lrGradients hrGradients : Tensor V) : ProcResult V P :=
  let st1 : ControllerState P := { st with iteration := st.iteration + 1 }
  let st2 : ControllerState P := { st1 with genGrad := 0 }
  let st3 : ControllerState P := { st2 with disGrad := 0 }
  let outputs := gradientForward N lrImages lrGradients
  let disInputReal := catT N hrImages hrGradients
  let disInputFake := catT N hrImages outputs.detach
  let disReal := disScoreT N disInputReal
  let disRealFeat := disFeatT N disInputReal
  let disFake := disScoreT N disInputFake
  let disRealLoss := advLossT N disReal true true
  let disFakeLoss := advLossT N disFake false true
  let disLoss := addT zeroT (halfT (addT disRealLoss disFakeLoss))
  let genInputFake := catT N hrImages outputs
  let genFake := disScoreT N genInputFake
  let genFakeFeat := disFeatT N genInputFake
  let genGanLoss := smulT (advLossT N genFake true false) w.ADV_LOSS_WEIGHT1
  let genFmLoss := smulT (fmFold N genFakeFeat disRealFeat N.nFeat) w.FM_LOSS_WEIGHT
  let genLoss := addT (addT zeroT genGanLoss) genFmLoss
  let logs := [("l_dis", disLoss.val), ("l_gen", genGanLoss.val),
               ("l_fm", genFmLoss.val)]
  let trace := [Event.iterIncr, Event.zeroGradGen, Event.zeroGradDis,
                Event.genFwd, Event.disFwd, Event.disFwd,
                Event.lossEval, Event.lossEval,
                Event.disFwd, Event.lossEval] ++
               (List.range N.nFeat).map (fun _ => Event.lossEval)
  ⟨st3, outputs, genLoss, disLoss, logs, trace⟩

/-- Model of `SRModel.forward(lr_images, hr_edges)`: fixed
transposed-convolution upsampling, then concatenation with the already
high-resolution guidance, then the generator. -/
def srForward {V : Type} (N : Nets V) (lrImages hrEdges : Tensor V) :
    Tensor V :=
  let hrImages := upsampleT N lrImages
  let inputs := catT N hrImages hrEdges
  applyGen N inputs

/-- Model of `SRModel.process`, line by line.  The SR discriminator sees
the image alone (no concatenation) and its features are discarded. -/
def srProcess {V P : Type} (N : Nets V) (w : Weights)
    (st : ControllerState P)
    (lrImages hrImages lrEdges hrEdges : Tensor V) : ProcResult V P :=
  let st1 : ControllerState P := { st with iteration := st.iteration + 1 }
  let st2 : ControllerState P := { st1 with genGrad := 0 }
  let st3 : ControllerState P := { st2 with disGrad := 0 }
  let outputs := srForward N lrImages hrEdges
  let disInputReal := hrImages
  let disInputFake := outputs.detach
  let disReal := disScoreT N disInputReal
  let disFake := disScoreT N disInputFake
  let disRealLoss := advLossT N disReal true true
  let disFakeLoss := advLossT N disFake false true
  let disLoss := addT zeroT (halfT (addT disRealLoss disFakeLoss))
  let genInputFake := outputs
  let genFake := disScoreT N genInputFake
  let genGanLoss := smulT (advLossT N genFake true false) w.ADV_LOSS_WEIGHT2
  let genL1Loss := smulT (l1T N outputs hrImages) w.L1_LOSS_WEIGHT
  let genContentLoss := smulT (contentLossT N outputs hrImages) w.CONTENT_LOSS_WEIGHT
  let genStyleLoss := smulT (styleLossT N outputs hrImages) w.STYLE_LOSS_WEIGHT
  let genLoss := addT (addT (addT (addT zeroT genGanLoss) genL1Loss)
                  genContentLoss) genStyleLoss
  let logs := [("l_dis", disLoss.val), ("l_gen", genGanLoss.val),
               ("l_l1", genL1Loss.val), ("l_content", genContentLoss.val),
               ("l_style", genStyleLoss.val)]
  let trace := [Event.iterIncr, Event.zeroGradGen, Event.zeroGradDis,
                Event.genFwd, Event.disFwd, Event.disFwd,
                Event.lossEval, Event.lossEval,
                Event.disFwd, Event.lossEval,
                Event.lossEval, Event.lossEval, Event.lossEval]
  ⟨st3, outputs, genLoss, disLoss, logs, trace⟩

/-- Observable events of one `backward` call, in Python statement order. -/
inductive BEvent where
  | disBackprop
  | disStep
  | genBackprop
  | genStep
  deriving Repr, DecidableEq

/-- Model of `loss.backward()`: autograd deposits gradient into exactly
those parameter sets the loss tensor's flags point at; `gG` and `gD` are
the (opaque) gradient magnitudes for the generator and the discriminator
parameter sets. -/
def lossBackward {P : Type} (gG gD : ℚ) (loss : Tensor ℚ)
    (st : ControllerState P) : ControllerState P :=
  { st with
    genGrad := st.genGrad + (if loss.genGrad then gG else 0),
    disGrad := st.disGrad + (if loss.disGrad then gD else 0) }

/-- Model of `self.gen_optimizer.step()`: updates the generator parameters
from the accumulated generator gradient via an opaque step rule. -/
def genOptStep {P : Type} (stepF : P → ℚ → P) (st : ControllerState P) :
    ControllerState P :=
  { st with genParams := stepF st.genParams st.genGrad }

/-- Model of `self.dis_optimizer.step()`. -/
def disOptStep {P : Type} (stepF : P → ℚ → P) (st : ControllerState P) :
    ControllerState P :=
  { st with disParams := stepF st.disParams st.disGrad }

/-- Model of `EdgeModel.backward(gen_loss, dis_loss)`: discriminator
backward, discriminator step, generator backward, generator step — in that
statement order, recorded in the returned trace. -/
def edgeBackward {P : Type} (gG gD : ℚ) (stepF : P → ℚ → P)
    (genLoss disLoss : Tensor ℚ) (st : ControllerState P) :
    ControllerState P × List BEvent :=
  let st1 := lossBackward gG gD disLoss st
  let st2 := disOptStep stepF st1
  let st3 := lossBackward gG gD genLoss st2
  let st4 := genOptStep stepF st3
  (st4, [BEvent.disBackprop, BEvent.disStep, BEvent.genBackprop, BEvent.genStep])

/-- Model of `GradientModel.backward` (verbatim duplicate in the source). -/
def gradientBackward {P : Type} (gG gD : ℚ) (stepF : P → ℚ → P)
    (genLoss disLoss : Tensor ℚ) (st : ControllerState P) :
    ControllerState P × List BEvent :=
  let st1 := lossBackward gG gD disLoss st
  let st2 := disOptStep stepF st1
  let st3 := lossBackward gG gD genLoss st2
  let st4 := genOptStep stepF st3
  (st4, [BEvent.disBackprop, BEvent.disStep, BEvent.genBackprop, BEvent.genStep])

/-- Model of `SRModel.backward` (verbatim duplicate in the source). -/
def srBackward {P : Type} (gG gD : ℚ) (stepF : P → ℚ → P)
    (genLoss disLoss : Tensor ℚ) (st : ControllerState P) :
    ControllerState P × List BEvent :=
  let st1 := lossBackward gG gD disLoss st
  let st2 := disOptStep stepF st1
  let st3 := lossBackward gG gD genLoss st2
  let st4 := genOptStep stepF st3
  (st4, [BEvent.disBackprop, BEvent.disStep, BEvent.genBackprop, BEvent.genStep])

/-!
Fixed zero-insertion upsampling of `SRModel` (`__init__` lines building
`scale_kernel` and `forward`'s `F.conv_transpose2d` call).

The kernel is `np.zeros((SCALE, SCALE))` with `kernel[0,0] = 1`, tiled to
shape `(3, 1, SCALE, SCALE)` and applied with `stride = SCALE`,
`padding = 0`, `groups = 3`, so each of the three channels is transposed-
convolved independently with the same 2-D kernel.
-/

/-- The 2-D scale kernel: 1 at position (0,0), 0 elsewhere inside the
`s × s` support. -/
def srScaleKernel (i j : ℕ) : ℚ :=
  if i = 0 ∧ j = 0 then 1 else 0

/-- Single-channel 2-D transposed convolution with stride `s`, padding 0
and an `s × s` kernel `K`, on an `H × W` input `x`:
`out p q = Σ h w, x h w * K (p - s*h) (q - s*w)` over the kernel support. -/
def convT (s H W : ℕ) (K : ℕ → ℕ → ℚ) (x : ℕ → ℕ → ℚ) (p q : ℕ) : ℚ :=
  ∑ h in Finset.range H, ∑ w in Finset.range W,
    (if s * h ≤ p ∧ p < s * h + s ∧ s * w ≤ q ∧ q < s * w + s then
      x h w * K (p - s * h) (q - s * w)
    else 0)

/-- `F.conv_transpose2d(lr_images, self.scale_kernel, padding=0,
stride=SCALE, groups=3)`: with `groups = 3` and the tiled kernel, channel
`c` of the output is the single-channel transposed convolution of channel
`c` of the input with `srScaleKernel`. -/
def srUpsample (s H W : ℕ) (x : ℕ → ℕ → ℕ → ℚ) (c p q : ℕ) : ℚ :=
  convT s H W srScaleKernel (x c) p q

/-- Spatial output size of a stride-`s`, padding-0 transposed convolution
with kernel extent `k` on `H` input positions: `(H - 1) * s + k`. -/
def convTOutSize (H s k : ℕ) : ℕ :=
  (H - 1) * s + k

/-!
Checkpoint store: `BaseModel.save` / `BaseModel.load` over a file store
mapping path strings to the dictionaries `torch.save` wrote.
-/

/-- Contents of a checkpoint file: `save` writes
`{"iteration": ..., "generator": ...}` to the generator path and
`{"discriminator": ...}` to the discriminator path. -/
inductive CkptData (P : Type) where
  | genCkpt (iteration : ℕ) (genState : P)
  | disCkpt (disState : P)

/-- The file system as seen by the checkpoint code. -/
def FS (P : Type) : Type := String → Option (CkptData P)

/-- Model of `torch.save(data, path)`: overwrite the file at `path`. -/
def fsWrite {P : Type} (fs : FS P) (p : String) (d : CkptData P) : FS P :=
  fun q => if q = p then some d else fs q

/-- Model of `self.gen_weights_path = os.path.join(config.PATH, name + "_gen.pth")`. -/
def genWeightsPath {P : Type} (st : ControllerState P) : String :=
  st.path ++ "/" ++ st.name ++ "_gen.pth"

/-- Model of `self.dis_weights_path = os.path.join(config.PATH, name + "_dis.pth")`. -/
def disWeightsPath {P : Type} (st : ControllerState P) : String :=
  st.path ++ "/" ++ st.name ++ "_dis.pth"

/-- Model of `BaseModel.save`: write `{iteration, generator}` to the
generator path, then `{discriminator}` to the discriminator path. -/
def save {P : Type} (st : ControllerState P) (fs : FS P) : FS P :=
  fsWrite (fsWrite fs (genWeightsPath st)
      (CkptData.genCkpt st.iteration st.genParams))
    (disWeightsPath st) (CkptData.disCkpt st.disParams)

/-- Discriminator half of `BaseModel.load`: restore the discriminator only
when `config.MODE == 1` and the file exists; a present file holding a
generator-shaped dictionary would make the Python raise a KeyError. -/
def loadDis {P : Type} (fs : FS P) (st : ControllerState P) :
    Except String (ControllerState P) :=
  if st.mode = some 1 then
    match fs (disWeightsPath st) with
    | none => Except.ok st
    | some (CkptData.disCkpt d) => Except.ok { st with disParams := d }
    | some (CkptData.genCkpt _ _) => Except.error "KeyError: discriminator"
  else Except.ok st

/-- Model of `BaseModel.load`: if the generator checkpoint exists, restore
the generator parameters and the iteration counter; a missing file is
silently skipped; then the discriminator half runs. -/
def load {P : Type} (fs : FS P) (st : ControllerState P) :
    Except String (ControllerState P) :=
  match fs (genWeightsPath st) with
  | none => loadDis fs st
  | some (CkptData.genCkpt it g) =>
      loadDis fs { st with iteration := it, genParams := g }
  | some (CkptData.disCkpt _) => Except.error "KeyError: generator"

/-!
Config attribute access (`src/unet_unet++/src/config.py`,
`Config.__getattr__`).
-/

/-- A YAML-backed Python value as stored in `Config._dict`. -/
inductive YVal where
  | null
  | int (n : ℤ)
  | float (q : ℚ)
  | str (s : String)
  | bool (b : Bool)
  deriving Repr, DecidableEq

/-- Model of `Config.__getattr__`: if `self._dict.get(key) is not None`
the stored value is returned; otherwise the method falls through and
Python implicitly returns `None` (the `DEFAULT_CONFIG` fallback is
commented out in the source). -/
def configGetattr (d : String → Option YVal) (key : String) : YVal :=
  match d key with
  | some v => if v = YVal.null then YVal.null else v
  | none => YVal.null

/-!
Helper lemmas.
-/

/-- Value of the feature-matching fold: the sum over all discriminator
feature layers of the raw L1 distances (`detach` does not change values). -/
theorem fmFold_val {V : Type} (N : Nets V) (fakeFeat realFeat : ℕ → Tensor V) :
    ∀ n : ℕ, (fmFold N fakeFeat realFeat n).val =
      ∑ i in Finset.range n, N.l1L (fakeFeat i).val (realFeat i).val := by
  intro n
  induction n with
  | zero => simp [fmFold, zeroT]
  | succ m ih =>
      simp only [fmFold] at ih ⊢
      rw [List.range_succ, List.foldl_append]
      simp only [List.foldl_cons, List.foldl_nil]
      rw [Finset.sum_range_succ, ← ih]
      rfl

/-- Counting any event other than `lossEval` in the feature-matching part
of a process trace gives zero. -/
theorem count_map_lossEval (e : Event) (he : e ≠ Event.lossEval) (n : ℕ) :
    ((List.range n).map (fun _ => Event.lossEval)).count e = 0 := by
  rw [List.count_eq_zero]
  intro hmem
  rcases List.mem_map.mp hmem with ⟨i, _, hi⟩
  exact he hi.symm

/-- The generator-path and discriminator-path strings of one controller
never coincide: they share the prefix and end in distinct file names. -/
theorem gen_path_ne_dis_path {P : Type} (st : ControllerState P) :
    genWeightsPath st ≠ disWeightsPath st := by
  unfold genWeightsPath disWeightsPath
  intro h
  have hd := congrArg String.data h
  simp only [String.data_append] at hd
  have h2 := List.append_cancel_left hd
  have h3 : ("_gen.pth" : String).data ≠ ("_dis.pth" : String).data := by decide
  exact h3 h2

/-!
Claim theorems.
-/

/-- C1: for every controller (Edge, Gradient, SR), `backward(gen_loss,
dis_loss)` performs its two phases in strict order — discriminator
backward then discriminator optimizer step, and only afterwards generator
backward then generator optimizer step — as witnessed both by the event
trace and by the final state being the composition of the four primitive
updates in exactly that order. -/
theorem backward_two_phase_order (P : Type) (gG gD : ℚ) (stepF : P → ℚ → P)
    (genLoss disLoss : Tensor ℚ) (st : ControllerState P) :
    ((edgeBackward gG gD stepF genLoss disLoss st).2 =
        [BEvent.disBackprop, BEvent.disStep, BEvent.genBackprop, BEvent.genStep] ∧
      (edgeBackward gG gD stepF genLoss disLoss st).1 =
        genOptStep stepF (lossBackward gG gD genLoss
          (disOptStep stepF (lossBackward gG gD disLoss st)))) ∧
    ((gradientBackward gG gD stepF genLoss disLoss st).2 =
        [BEvent.disBackprop, BEvent.disStep, BEvent.genBackprop, BEvent.genStep] ∧
      (gradientBackward gG gD stepF genLoss disLoss st).1 =
        genOptStep stepF (lossBackward gG gD genLoss
          (disOptStep stepF (lossBackward gG gD disLoss st)))) ∧
    ((srBackward gG gD stepF genLoss disLoss st).2 =
        [BEvent.disBackprop, BEvent.disStep, BEvent.genBackprop, BEvent.genStep] ∧
      (srBackward gG gD stepF genLoss disLoss st).1 =
        genOptStep stepF (lossBackward gG gD genLoss
          (disOptStep stepF (lossBackward gG gD disLoss st)))) := by
  exact ⟨⟨rfl, rfl⟩, ⟨rfl, rfl⟩, ⟨rfl, rfl⟩⟩

/-- C2: for every controller and every `process` call on leaf batch
inputs, (i) the generator forward pass appears exactly once in the trace;
(ii) the discriminator loss carries no gradient path into the generator
(its fake input is the detached copy); (iii) back-propagating only the
discriminator loss from the post-`process` state leaves the generator
gradient at zero; (iv) the generator loss does use the gradient-attached
copy; (v) detaching preserves the value of the single generated output,
so both branches consume the same tensor value. -/
theorem process_gradient_isolation (V P : Type) (N : Nets V) (w : Weights)
    (st : ControllerState P) (a b c d : V) (gG gD : ℚ) :
    ((edgeProcess N w st (Tensor.leaf a) (Tensor.leaf b) (Tensor.leaf c)
        (Tensor.leaf d)).trace.count Event.genFwd = 1 ∧
      (edgeProcess N w st (Tensor.leaf a) (Tensor.leaf b) (Tensor.leaf c)
        (Tensor.leaf d)).disLoss.genGrad = false ∧
      (lossBackward gG gD
        (edgeProcess N w st (Tensor.leaf a) (Tensor.leaf b) (Tensor.leaf c)
          (Tensor.leaf d)).disLoss
        (edgeProcess N w st (Tensor.leaf a) (Tensor.leaf b) (Tensor.leaf c)
          (Tensor.leaf d)).state).genGrad = 0 ∧
      (edgeProcess N w st (Tensor.leaf a) (Tensor.leaf b) (Tensor.leaf c)
        (Tensor.leaf d)).genLoss.genGrad = true ∧
      ((edgeProcess N w st (Tensor.leaf a) (Tensor.leaf b) (Tensor.leaf c)
        (Tensor.leaf d)).outputs.detach).val =
      (edgeProcess N w st (Tensor.leaf a) (Tensor.leaf b) (Tensor.leaf c)
        (Tensor.leaf d)).outputs.val) ∧
    ((gradientProcess N w st (Tensor.leaf a) (Tensor.leaf b) (Tensor.leaf c)
        (Tensor.leaf d)).trace.count Event.genFwd = 1 ∧
      (gradientProcess N w st (Tensor.leaf a) (Tensor.leaf b) (Tensor.leaf c)
        (Tensor.leaf d)).disLoss.genGrad = false ∧
      (lossBackward gG gD
        (gradientProcess N w st (Tensor.leaf a) (Tensor.leaf b) (Tensor.leaf c)
          (Tensor.leaf d)).disLoss
        (gradientProcess N w st (Tensor.leaf a) (Tensor.leaf b) (Tensor.leaf c)
          (Tensor.leaf d)).state).genGrad = 0 ∧
      (gradientProcess N w st (Tensor.leaf a) (Tensor.leaf b) (Tensor.leaf c)
        (Tensor.leaf d)).genLoss.genGrad = true ∧
      ((gradientProcess N w st (Tensor.leaf a) (Tensor.leaf b) (Tensor.leaf c)
        (Tensor.leaf d)).outputs.detach).val =
      (gradientProcess N w st (Tensor.leaf a) (Tensor.leaf b) (Tensor.leaf c)
        (Tensor.leaf d)).outputs.val) ∧
    ((srProcess N w st (Tensor.leaf a) (Tensor.leaf b) (Tensor.leaf c)
        (Tensor.leaf d)).trace.count Event.genFwd = 1 ∧
      (srProcess N w st (Tensor.leaf a) (Tensor.leaf b) (Tensor.leaf c)
        (Tensor.leaf d)).disLoss.genGrad = false ∧
      (lossBackward gG gD
        (srProcess N w st (Tensor.leaf a) (Tensor.leaf b) (Tensor.leaf c)
          (Tensor.leaf d)).disLoss
        (srProcess N w st (Tensor.leaf a) (Tensor.leaf b) (Tensor.leaf c)
          (Tensor.leaf d)).state).genGrad = 0 ∧
      (srProcess N w st (Tensor.leaf a) (Tensor.leaf b) (Tensor.leaf c)
        (Tensor.leaf d)).genLoss.genGrad = true ∧
      ((srProcess N w st (Tensor.leaf a) (Tensor.leaf b) (Tensor.leaf c)
        (Tensor.leaf d)).outputs.detach).val =
      (srProcess N w st (Tensor.leaf a) (Tensor.leaf b) (Tensor.leaf c)
        (Tensor.leaf d)).outputs.val) := by
  have hcg := count_map_lossEval Event.genFwd (by decide) N.nFeat
  refine ⟨⟨?_, rfl, ?_, rfl, rfl⟩, ⟨?_, rfl, ?_, rfl, rfl⟩, ⟨rfl, rfl, ?_, rfl, rfl⟩⟩
  · show (([Event.iterIncr, Event.zeroGradGen, Event.zeroGradDis,
        Event.genFwd, Event.disFwd, Event.disFwd,
        Event.lossEval, Event.lossEval,
        Event.disFwd, Event.lossEval] ++
        (List.range N.nFeat).map (fun _ => Event.lossEval)).count Event.genFwd) = 1
    rw [List.count_append, hcg]
    decide
  · show (0 : ℚ) + (if false then gG else 0) = 0
    norm_num
  · show (([Event.iterIncr, Event.zeroGradGen, Event.zeroGradDis,
        Event.genFwd, Event.disFwd, Event.disFwd,
        Event.lossEval, Event.lossEval,
        Event.disFwd, Event.lossEval] ++
        (List.range N.nFeat).map (fun _ => Event.lossEval)).count Event.genFwd) = 1
    rw [List.count_append, hcg]
    decide
  · show (0 : ℚ) + (if false then gG else 0) = 0
    norm_num
  · show (0 : ℚ) + (if false then gG else 0) = 0
    norm_num

/-- C3: for every `process` call, the discriminator loss is exactly the
average of the real-pair and detached-fake-pair adversarial losses, and
the generator loss is exactly the sum of its per-term raw values times
their configured weights — Edge/Gradient: adversarial × ADV_LOSS_WEIGHT1
plus feature-matching × FM_LOSS_WEIGHT; SR: adversarial × ADV_LOSS_WEIGHT2
plus L1 × L1_LOSS_WEIGHT plus content × CONTENT_LOSS_WEIGHT plus
style × STYLE_LOSS_WEIGHT — with no cross-term coupling or normalization. -/
theorem process_loss_composition (V P : Type) (N : Nets V) (w : Weights)
    (st : ControllerState P) (t1 t2 t3 t4 : Tensor V) :
    ((edgeProcess N w st t1 t2 t3 t4).disLoss.val =
        (N.advL (N.disScoreF (N.catF t2.val t4.val)) true true +
          N.advL (N.disScoreF (N.catF t2.val
            (N.genF (N.catF (N.interpF t1.val) (N.interpF t3.val))))) false true) / 2 ∧
      (edgeProcess N w st t1 t2 t3 t4).genLoss.val =
        N.advL (N.disScoreF (N.catF t2.val
            (N.genF (N.catF (N.interpF t1.val) (N.interpF t3.val))))) true false *
          w.ADV_LOSS_WEIGHT1 +
        (∑ i in Finset.range N.nFeat,
          N.l1L (N.disFeatF (N.catF t2.val
              (N.genF (N.catF (N.interpF t1.val) (N.interpF t3.val)))) i)
            (N.disFeatF (N.catF t2.val t4.val) i)) * w.FM_LOSS_WEIGHT) ∧
    ((gradientProcess N w st t1 t2 t3 t4).disLoss.val =
        (N.advL (N.disScoreF (N.catF t2.val t4.val)) true true +
          N.advL (N.disScoreF (N.catF t2.val
            (N.genF (N.catF (N.interpF t1.val) (N.interpF t3.val))))) false true) / 2 ∧
      (gradientProcess N w st t1 t2 t3 t4).genLoss.val =
        N.advL (N.disScoreF (N.catF t2.val
            (N.genF (N.catF (N.interpF t1.val) (N.interpF t3.val))))) true false *
          w.ADV_LOSS_WEIGHT1 +
        (∑ i in Finset.range N.nFeat,
          N.l1L (N.disFeatF (N.catF t2.val
              (N.genF (N.catF (N.interpF t1.val) (N.interpF t3.val)))) i)
            (N.disFeatF (N.catF t2.val t4.val) i)) * w.FM_LOSS_WEIGHT) ∧
    ((srProcess N w st t1 t2 t3 t4).disLoss.val =
        (N.advL (N.disScoreF t2.val) true true +
          N.advL (N.disScoreF
            (N.genF (N.catF (N.upsampleF t1.val) t4.val))) false true) / 2 ∧
      (srProcess N w st t1 t2 t3 t4).genLoss.val =
        N.advL (N.disScoreF (N.genF (N.catF (N.upsampleF t1.val) t4.val))) true false *
          w.ADV_LOSS_WEIGHT2 +
        N.l1L (N.genF (N.catF (N.upsampleF t1.val) t4.val)) t2.val * w.L1_LOSS_WEIGHT +
        N.contentL (N.genF (N.catF (N.upsampleF t1.val) t4.val)) t2.val *
          w.CONTENT_LOSS_WEIGHT +
        N.styleL (N.genF (N.catF (N.upsampleF t1.val) t4.val)) t2.val *
          w.STYLE_LOSS_WEIGHT) := by
  refine ⟨⟨?_, ?_⟩, ⟨?_, ?_⟩, ⟨?_, ?_⟩⟩ <;>
    simp [edgeProcess, gradientProcess, srProcess, edgeForward, gradientForward,
      srForward, catT, interpT, upsampleT, applyGen, disScoreT, disFeatT,
      advLossT, addT, halfT, zeroT, smulT, l1T, contentLossT, styleLossT,
      fmFold_val, Tensor.detach]

/-- C4: every `process` call returns a loss log with exactly one entry per
contributing loss term in the fixed order — 3 entries
("l_dis", "l_gen", "l_fm") for Edge/Gradient, 5 entries
("l_dis", "l_gen", "l_l1", "l_content", "l_style") for SR — where each
generator-side entry carries its weighted pre-accumulation scalar and the
discriminator entry carries the final averaged value. -/
theorem process_loss_log (V P : Type) (N : Nets V) (w : Weights)
    (st : ControllerState P) (t1 t2 t3 t4 : Tensor V) :
    (edgeProcess N w st t1 t2 t3 t4).logs =
      [("l_dis",
          (N.advL (N.disScoreF (N.catF t2.val t4.val)) true true +
            N.advL (N.disScoreF (N.catF t2.val
              (N.genF (N.catF (N.interpF t1.val) (N.interpF t3.val))))) false true) / 2),
        ("l_gen",
          N.advL (N.disScoreF (N.catF t2.val
              (N.genF (N.catF (N.interpF t1.val) (N.interpF t3.val))))) true false *
            w.ADV_LOSS_WEIGHT1),
        ("l_fm",
          (∑ i in Finset.range N.nFeat,
            N.l1L (N.disFeatF (N.catF t2.val
                (N.genF (N.catF (N.interpF t1.val) (N.interpF t3.val)))) i)
              (N.disFeatF (N.catF t2.val t4.val) i)) * w.FM_LOSS_WEIGHT)] ∧
    (gradientProcess N w st t1 t2 t3 t4).logs =
      [("l_dis",
          (N.advL (N.disScoreF (N.catF t2.val t4.val)) true true +
            N.advL (N.disScoreF (N.catF t2.val
              (N.genF (N.catF (N.interpF t1.val) (N.interpF t3.val))))) false true) / 2),
        ("l_gen",
          N.advL (N.disScoreF (N.catF t2.val
              (N.genF (N.catF (N.interpF t1.val) (N.interpF t3.val))))) true false *
            w.ADV_LOSS_WEIGHT1),
        ("l_fm",
          (∑ i in Finset.range N.nFeat,
            N.l1L (N.disFeatF (N.catF t2.val
                (N.genF (N.catF (N.interpF t1.val) (N.interpF t3.val)))) i)
              (N.disFeatF (N.catF t2.val t4.val) i)) * w.FM_LOSS_WEIGHT)] ∧
    (srProcess N w st t1 t2 t3 t4).logs =
      [("l_dis",
          (N.advL (N.disScoreF t2.val) true true +
            N.advL (N.disScoreF
              (N.genF (N.catF (N.upsampleF t1.val) t4.val))) false true) / 2),
        ("l_gen",
          N.advL (N.disScoreF (N.genF (N.catF (N.upsampleF t1.val) t4.val))) true false *
            w.ADV_LOSS_WEIGHT2),
        ("l_l1",
          N.l1L (N.genF (N.catF (N.upsampleF t1.val) t4.val)) t2.val *
            w.L1_LOSS_WEIGHT),
        ("l_content",
          N.contentL (N.genF (N.catF (N.upsampleF t1.val) t4.val)) t2.val *
            w.CONTENT_LOSS_WEIGHT),
        ("l_style",
          N.styleL (N.genF (N.catF (N.upsampleF t1.val) t4.val)) t2.val *
            w.STYLE_LOSS_WEIGHT)] := by
  refine ⟨?_, ?_, ?_⟩ <;>
    simp [edgeProcess, gradientProcess, srProcess, edgeForward, gradientForward,
      srForward, catT, interpT, upsampleT, applyGen, disScoreT, disFeatT,
      advLossT, addT, halfT, zeroT, smulT, l1T, contentLossT, styleLossT,
      fmFold_val, Tensor.detach]

/-- C5: the iteration counter starts at 0 at construction; every `process`
call of every controller increments it by exactly 1, and the increment is
the first event of the process trace — before the optimizers' gradients
are cleared, before any forward pass and before any loss evaluation — and
occurs only once; `backward` never changes the counter (and `save` returns
only a new file store, so no operation other than `load` can decrease it). -/
theorem iteration_counter_protocol (V P : Type) (N : Nets V) (w : Weights)
    (st : ControllerState P) (t1 t2 t3 t4 : Tensor V)
    (name path : String) (mode : Option ℤ) (g0 d0 : P)
    (gG gD : ℚ) (stepF : P → ℚ → P) (gl dl : Tensor ℚ) :
    (mkBaseModel name path mode g0 d0).iteration = 0 ∧
    (edgeProcess N w st t1 t2 t3 t4).state.iteration = st.iteration + 1 ∧
    (gradientProcess N w st t1 t2 t3 t4).state.iteration = st.iteration + 1 ∧
    (srProcess N w st t1 t2 t3 t4).state.iteration = st.iteration + 1 ∧
    (∃ rest, (edgeProcess N w st t1 t2 t3 t4).trace = Event.iterIncr :: rest ∧
      Event.iterIncr ∉ rest) ∧
    (∃ rest, (gradientProcess N w st t1 t2 t3 t4).trace = Event.iterIncr :: rest ∧
      Event.iterIncr ∉ rest) ∧
    (∃ rest, (srProcess N w st t1 t2 t3 t4).trace = Event.iterIncr :: rest ∧
      Event.iterIncr ∉ rest) ∧
    (edgeBackward gG gD stepF gl dl st).1.iteration = st.iteration ∧
    (gradientBackward gG gD stepF gl dl st).1.iteration = st.iteration ∧
    (srBackward gG gD stepF gl dl st).1.iteration = st.iteration := by
  refine ⟨rfl, rfl, rfl, rfl, ⟨_, rfl, ?_⟩, ⟨_, rfl, ?_⟩, ⟨_, rfl, by decide⟩,
    rfl, rfl, rfl⟩ <;>
  · intro hmem
    rcases List.mem_append.mp hmem with h | h
    · exact absurd h (by decide)
    · rcases List.mem_map.mp h with ⟨i, _, hi⟩
      exact Event.noConfusion hi

/-- Window lemma for stride-`s` transposed convolution: an output position
`s * h` lies in the kernel window of input position `b` only for `b = h`. -/
theorem convT_window_eq (s b h : ℕ) (hs : 0 < s) (h1 : s * b ≤ s * h)
    (h2 : s * h < s * b + s) : b = h := by
  have hb : b ≤ h := Nat.le_of_mul_le_mul_left h1 hs
  have hh2 : s * h < s * (b + 1) := by rw [Nat.mul_succ]; exact h2
  have hh3 : h < b + 1 := Nat.lt_of_mul_lt_mul_left hh2
  omega

/-- C6: for the SR controller's fixed zero-insertion upsampling with scale
factor `s > 0`: the output spatial extent of the stride-`s`, `s × s`-kernel
transposed convolution is `s * H`; every output entry at a position not
congruent to 0 mod `s` in both axes is zero; and sampling every `s`-th
pixel of the upsampled image recovers the low-res image exactly. -/
theorem sr_upsample_zero_insertion (s H W : ℕ) (hs : 0 < s) :
    (∀ H0 : ℕ, 1 ≤ H0 → convTOutSize H0 s s = s * H0) ∧
    (∀ (x : ℕ → ℕ → ℕ → ℚ) (c p q : ℕ), ¬(p % s = 0 ∧ q % s = 0) →
      srUpsample s H W x c p q = 0) ∧
    (∀ (x : ℕ → ℕ → ℕ → ℚ) (c h w0 : ℕ), h < H → w0 < W →
      srUpsample s H W x c (s * h) (s * w0) = x c h w0) := by
  refine ⟨?_, ?_, ?_⟩
  · intro H0 h1
    match H0, h1 with
    | (n + 1), _ =>
        simp only [convTOutSize, Nat.succ_sub_one]
        ring
  · intro x c p q hpq
    unfold srUpsample convT
    apply Finset.sum_eq_zero
    intro h _
    apply Finset.sum_eq_zero
    intro w' _
    split
    · rename_i hg
      have hK : srScaleKernel (p - s * h) (q - s * w') = 0 := by
        have hne : ¬(p - s * h = 0 ∧ q - s * w' = 0) := by
          rintro ⟨hp0, hq0⟩
          refine hpq ⟨?_, ?_⟩
          · have hp : p = s * h :=
              le_antisymm (Nat.sub_eq_zero_iff_le.mp hp0) hg.1
            rw [hp]
            exact Nat.mul_mod_right s h
          · have hq : q = s * w' :=
              le_antisymm (Nat.sub_eq_zero_iff_le.mp hq0) hg.2.2.1
            rw [hq]
            exact Nat.mul_mod_right s w'
        simp [srScaleKernel, hne]
      rw [hK, mul_zero]
    · rfl
  · intro x c h w0 hh hw
    unfold srUpsample convT
    rw [Finset.sum_eq_single h]
    · rw [Finset.sum_eq_single w0]
      · have g2 : s * h < s * h + s := Nat.lt_add_of_pos_right hs
        have g4 : s * w0 < s * w0 + s := Nat.lt_add_of_pos_right hs
        rw [if_pos ⟨le_refl _, g2, le_refl _, g4⟩, Nat.sub_self, Nat.sub_self]
        simp [srScaleKernel]
      · intro b _ hbne
        split
        · rename_i hg
          exact absurd (convT_window_eq s b w0 hs hg.2.2.1 hg.2.2.2) hbne
        · rfl
      · intro habs
        exact absurd (Finset.mem_range.mpr hw) habs
    · intro b _ hbne
      apply Finset.sum_eq_zero
      intro w' _
      split
      · rename_i hg
        exact absurd (convT_window_eq s b h hs hg.1 hg.2.1) hbne
      · rfl
    · intro habs
      exact absurd (Finset.mem_range.mpr hh) habs

/-- Sample low-res image used to exercise the upsampling theorem. -/
def xSample : ℕ → ℕ → ℕ → ℚ :=
  fun c h w => (c : ℚ) + 10 * (h : ℚ) + (w : ℚ) + 1

/-- Witness for C6 at scale 2 on a 3×3 image: the output extent is 6, an
off-grid entry is zero, and an on-grid entry returns the source pixel. -/
theorem sr_upsample_zero_insertion_witness :
    convTOutSize 3 2 2 = 2 * 3 ∧
    srUpsample 2 3 3 xSample 0 1 2 = 0 ∧
    srUpsample 2 3 3 xSample 1 (2 * 1) (2 * 2) = xSample 1 1 2 := by
  refine ⟨(sr_upsample_zero_insertion 2 3 3 (by decide)).1 3 (by decide), ?_, ?_⟩
  · exact (sr_upsample_zero_insertion 2 3 3 (by decide)).2.1 xSample 0 1 2 (by decide)
  · exact (sr_upsample_zero_insertion 2 3 3 (by decide)).2.2 xSample 1 1 2
      (by decide) (by decide)

/-- C7: `save` writes `{iteration, generator state}` to the `<name>_gen`
path and `{discriminator state}` to the separate `<name>_dis` path, and
`load` into a fresh controller of matching name and configured path
restores exactly the saved iteration counter and generator parameters. -/
theorem checkpoint_roundtrip (P : Type) (fs : FS P)
    (st fresh : ControllerState P)
    (hname : fresh.name = st.name) (hpath : fresh.path = st.path) :
    save st fs (genWeightsPath st) =
      some (CkptData.genCkpt st.iteration st.genParams) ∧
    save st fs (disWeightsPath st) = some (CkptData.disCkpt st.disParams) ∧
    (load (save st fs) fresh).map (fun r => (r.iteration, r.genParams)) =
      Except.ok (st.iteration, st.genParams) := by
  have hgp : genWeightsPath fresh = genWeightsPath st := by
    unfold genWeightsPath
    rw [hname, hpath]
  have hdp : disWeightsPath fresh = disWeightsPath st := by
    unfold disWeightsPath
    rw [hname, hpath]
  have hne := gen_path_ne_dis_path st
  have hsg : save st fs (genWeightsPath st) =
      some (CkptData.genCkpt st.iteration st.genParams) := by
    unfold save fsWrite
    rw [if_neg hne, if_pos rfl]
  have hsd : save st fs (disWeightsPath st) =
      some (CkptData.disCkpt st.disParams) := by
    unfold save fsWrite
    rw [if_pos rfl]
  refine ⟨hsg, hsd, ?_⟩
  have hload : load (save st fs) fresh =
      loadDis (save st fs)
        { fresh with iteration := st.iteration, genParams := st.genParams } := by
    unfold load
    rw [hgp, hsg]
  rw [hload]
  have hd2 : disWeightsPath
      ({ fresh with iteration := st.iteration, genParams := st.genParams } :
        ControllerState P) = disWeightsPath st := by
    rw [← hdp]
    rfl
  unfold loadDis
  rw [hd2, hsd]
  by_cases hm : fresh.mode = some 1
  · have hm2 : ({ fresh with
        iteration := st.iteration, genParams := st.genParams } :
        ControllerState P).mode = some 1 := hm
    rw [if_pos hm2]
    rfl
  · have hm2 : ¬(({ fresh with
        iteration := st.iteration, genParams := st.genParams } :
        ControllerState P).mode = some 1) := hm
    rw [if_neg hm2]
    rfl

/-- Empty file store used by the checkpoint witnesses. -/
def fs0 : FS ℕ := fun _ => none

/-- A controller about to be saved, with nonzero state. -/
def stSaved : ControllerState ℕ := ⟨"EdgeModel", "ckpts", some 1, 7, 3, 4, 0, 0⟩

/-- A freshly constructed controller of the same name and path. -/
def stFresh : ControllerState ℕ := mkBaseModel "EdgeModel" "ckpts" (some 1) 0 0

/-- Witness for C7: a concrete save/load round trip restores iteration 7
and generator blob 3. -/
theorem checkpoint_roundtrip_witness :
    save stSaved fs0 (genWeightsPath stSaved) = some (CkptData.genCkpt 7 3) ∧
    save stSaved fs0 (disWeightsPath stSaved) = some (CkptData.disCkpt 4) ∧
    (load (save stSaved fs0) stFresh).map (fun r => (r.iteration, r.genParams)) =
      Except.ok (7, 3) :=
  checkpoint_roundtrip ℕ fs0 stSaved stFresh rfl rfl

/-- C8: `load` never fails on missing checkpoint files — a missing
generator checkpoint leaves generator parameters and iteration unchanged,
and the discriminator checkpoint is restored exactly when its file exists
and the configured mode is training (`MODE == 1`); in any non-training
mode the discriminator checkpoint is never loaded. -/
theorem load_missing_files (P : Type) (fs : FS P) (st : ControllerState P) :
    (fs (genWeightsPath st) = none → fs (disWeightsPath st) = none →
      load fs st = Except.ok st) ∧
    (fs (genWeightsPath st) = none → st.mode ≠ some 1 →
      load fs st = Except.ok st) ∧
    (∀ it g, fs (genWeightsPath st) = some (CkptData.genCkpt it g) →
      st.mode ≠ some 1 →
      load fs st = Except.ok { st with iteration := it, genParams := g }) ∧
    (∀ d, fs (genWeightsPath st) = none → st.mode = some 1 →
      fs (disWeightsPath st) = some (CkptData.disCkpt d) →
      load fs st = Except.ok { st with disParams := d }) ∧
    (∀ it g, fs (genWeightsPath st) = some (CkptData.genCkpt it g) →
      st.mode = some 1 → fs (disWeightsPath st) = none →
      load fs st = Except.ok { st with iteration := it, genParams := g }) ∧
    (∀ it g d, fs (genWeightsPath st) = some (CkptData.genCkpt it g) →
      st.mode = some 1 → fs (disWeightsPath st) = some (CkptData.disCkpt d) →
      load fs st =
        Except.ok { st with
          iteration := it, genParams := g, disParams := d }) := by
  refine ⟨?_, ?_, ?_, ?_, ?_, ?_⟩
  · intro h1 h2
    unfold load
    rw [h1]
    unfold loadDis
    by_cases hm : st.mode = some 1
    · rw [if_pos hm, h2]
    · rw [if_neg hm]
  · intro h1 hm
    unfold load
    rw [h1]
    unfold loadDis
    rw [if_neg hm]
  · intro it g h1 hm
    unfold load
    rw [h1]
    show loadDis fs { st with iteration := it, genParams := g } =
      Except.ok { st with iteration := it, genParams := g }
    unfold loadDis
    have hm2 : ¬(({ st with iteration := it, genParams := g } :
        ControllerState P).mode = some 1) := hm
    rw [if_neg hm2]
  · intro d h1 hm h2
    unfold load
    rw [h1]
    unfold loadDis
    rw [if_pos hm, h2]
  · intro it g h1 hm h2
    unfold load
    rw [h1]
    show loadDis fs { st with iteration := it, genParams := g } =
      Except.ok { st with iteration := it, genParams := g }
    unfold loadDis
    have hm2 : ({ st with iteration := it, genParams := g } :
        ControllerState P).mode = some 1 := hm
    have hd : disWeightsPath ({ st with iteration := it, genParams := g } :
        ControllerState P) = disWeightsPath st := rfl
    rw [if_pos hm2, hd, h2]
  · intro it g d h1 hm h2
    unfold load
    rw [h1]
    show loadDis fs { st with iteration := it, genParams := g } =
      Except.ok { st with iteration := it, genParams := g, disParams := d }
    unfold loadDis
    have hm2 : ({ st with iteration := it, genParams := g } :
        ControllerState P).mode = some 1 := hm
    have hd : disWeightsPath ({ st with iteration := it, genParams := g } :
        ControllerState P) = disWeightsPath st := rfl
    rw [if_pos hm2, hd, h2]

/-- A training-mode controller with no in-memory checkpoint data. -/
def stTrain : ControllerState ℕ := ⟨"SRModel", "ckpts", some 1, 5, 11, 12, 0, 0⟩

/-- A test-mode (`MODE == 2`) controller. -/
def stTest : ControllerState ℕ := ⟨"SRModel", "ckpts", some 2, 5, 11, 12, 0, 0⟩

/-- A file store holding only the discriminator checkpoint of `stTrain`. -/
def fsDisOnly : FS ℕ :=
  fun q => if q = disWeightsPath stTrain then some (CkptData.disCkpt 9) else none

/-- A file store holding only the generator checkpoint of `stTest`. -/
def fsGenOnly : FS ℕ :=
  fun q => if q = genWeightsPath stTest then some (CkptData.genCkpt 42 13) else none

/-- A file store holding only the generator checkpoint of `stTrain`. -/
def fsGenOnlyTrain : FS ℕ :=
  fun q => if q = genWeightsPath stTrain then some (CkptData.genCkpt 42 13) else none

/-- A file store holding both checkpoints of `stTrain`. -/
def fsBoth : FS ℕ :=
  fun q =>
    if q = genWeightsPath stTrain then some (CkptData.genCkpt 42 13)
    else if q = disWeightsPath stTrain then some (CkptData.disCkpt 9)
    else none

/-- Witness for C8: with no files `load` is the identity; in test mode the
discriminator file is ignored even when the generator file is loaded; in
training mode a lone discriminator file is restored, a lone generator file
loads without error leaving the discriminator untouched, and with both
files present both halves are restored. -/
theorem load_missing_files_witness :
    load fs0 stTrain = Except.ok stTrain ∧
    load fs0 stTest = Except.ok stTest ∧
    load fsGenOnly stTest =
      Except.ok { stTest with iteration := 42, genParams := 13 } ∧
    load fsDisOnly stTrain = Except.ok { stTrain with disParams := 9 } ∧
    load fsGenOnlyTrain stTrain =
      Except.ok { stTrain with iteration := 42, genParams := 13 } ∧
    load fsBoth stTrain =
      Except.ok { stTrain with
        iteration := 42, genParams := 13, disParams := 9 } := by
  refine ⟨(load_missing_files ℕ fs0 stTrain).1 rfl rfl,
    (load_missing_files ℕ fs0 stTest).2.1 rfl (by decide),
    (load_missing_files ℕ fsGenOnly stTest).2.2.1 42 13 rfl (by decide),
    (load_missing_files ℕ fsDisOnly stTrain).2.2.2.1 9 rfl rfl rfl,
    (load_missing_files ℕ fsGenOnlyTrain stTrain).2.2.2.2.1 42 13 rfl rfl rfl,
    (load_missing_files ℕ fsBoth stTrain).2.2.2.2.2 42 13 9 rfl rfl rfl⟩

/-- C10: when only the discriminator checkpoint file exists and the mode
is training, `load` restores the discriminator parameters while leaving
the iteration counter (0 in a freshly constructed controller) and the
generator parameters untouched; the iteration counter lives only in the
generator checkpoint. -/
theorem load_dis_only (P : Type) (fs : FS P) (st : ControllerState P) (d : P)
    (h1 : fs (genWeightsPath st) = none) (hm : st.mode = some 1)
    (h2 : fs (disWeightsPath st) = some (CkptData.disCkpt d)) :
    load fs st = Except.ok { st with disParams := d } ∧
    (load fs st).map (fun r => (r.iteration, r.genParams)) =
      Except.ok (st.iteration, st.genParams) ∧
    (mkBaseModel st.name st.path st.mode st.genParams st.disParams).iteration
      = 0 := by
  have hres : load fs st = Except.ok { st with disParams := d } := by
    unfold load
    rw [h1]
    unfold loadDis
    rw [if_pos hm, h2]
  refine ⟨hres, ?_, rfl⟩
  rw [hres]
  rfl

/-- Witness for C10: a lone discriminator file in training mode updates
only the discriminator blob of `stTrain`. -/
theorem load_dis_only_witness :
    load fsDisOnly stTrain = Except.ok { stTrain with disParams := 9 } ∧
    (load fsDisOnly stTrain).map (fun r => (r.iteration, r.genParams)) =
      Except.ok (5, 11) ∧
    (mkBaseModel "SRModel" "ckpts" (some 1) 11 12).iteration = 0 :=
  load_dis_only ℕ fsDisOnly stTrain 9 rfl rfl rfl

/-- C9: attribute access on a configuration object for a key the loaded
configuration does not set returns the "not provided" value (Python
`None`, modelled as `YVal.null`) — never a silent numeric default and
never an exception (`configGetattr` is total). -/
theorem config_unset_returns_none (d : String → Option YVal) (key : String)
    (h : d key = none) :
    configGetattr d key = YVal.null ∧
    (∀ n : ℤ, configGetattr d key ≠ YVal.int n) ∧
    (∀ q : ℚ, configGetattr d key ≠ YVal.float q) := by
  unfold configGetattr
  rw [h]
  exact ⟨rfl, fun n hc => YVal.noConfusion hc, fun q hc => YVal.noConfusion hc⟩

/-- A sample configuration dictionary setting only the MODE key. -/
def dSample : String → Option YVal :=
  fun k => if k = "MODE" then some (YVal.int 1) else none

/-- Witness for C9: accessing the unset key "LR" yields `YVal.null` and in
particular neither the integer 0 nor the float 0. -/
theorem config_unset_returns_none_witness :
    configGetattr dSample "LR" = YVal.null ∧
    configGetattr dSample "LR" ≠ YVal.int 0 ∧
    configGetattr dSample "LR" ≠ YVal.float 0 :=
  ⟨(config_unset_returns_none dSample "LR" rfl).1,
    (config_unset_returns_none dSample "LR" rfl).2.1 0,
    (config_unset_returns_none dSample "LR" rfl).2.2 0⟩

end SkinSR
